import Mathlib

/-!
Verification of the session lifecycle and rating gate of the SkillSwap
tutoring-exchange web application (Methusaleh/Web_App_Calkins).

The definitions below are a shallow embedding of the HTTP handlers in
`src/index.js` (the operative server; `src/unnamed/part_003` holds an
earlier draft of the same routes, embedded separately below where it
diverges).  A session row of the relational `Sessions` table is a
`Session` record whose `status` and `location_type` columns are plain
strings, exactly as the VARCHAR columns store them; a row of `Ratings`
is a `Rating`.  Each handler becomes a function from the looked-up row
(`Option Session`, `none` meaning the SELECT found no row) and the JSON
request-body fields to the HTTP status code it answers with and the row
(or ratings table) afterwards.  Absent JSON fields are `none`;
JavaScript truthiness tests (`!x`) on strings and numbers are modelled
by `strFalsy` / `natFalsy`.
-/

namespace SkillSwap

/-- One row of the `Sessions` table (schema in src/index.js lines 116-127).
`status` and `locationType` are the literal strings the code stores
("Requested", "Confirmed", "Denied", "Cancelled", "Completed";
"Online", "In-Person"). -/
structure Session where
  providerId : Nat
  requesterId : Nat
  skillTaughtId : Nat
  sessionDateTime : String
  locationType : String
  status : String
  meetingUrl : Option String
  cancellationReason : Option String
deriving DecidableEq, Repr

/-- One row of the `Ratings` table (schema in src/index.js lines 129-137).
The table has a UNIQUE constraint on `session_id`. -/
structure Rating where
  sessionId : Nat
  raterId : Nat
  rateeId : Nat
  likeStatus : Bool
  feedbackText : Option String
deriving DecidableEq, Repr

/-- JavaScript truthiness of a string-valued request field: `!x` is true
when the field is absent (undefined/null) or the empty string. -/
def strFalsy : Option String → Bool
  | none => true
  | some s => s.isEmpty

/-- JavaScript truthiness of a numeric request field: `!x` is true when
the field is absent or `0`. -/
def natFalsy : Option Nat → Bool
  | none => true
  | some n => n == 0

/-- `x || d` on a string field: the default replaces an absent or empty
string (both falsy in JavaScript). -/
def orDefault (s : Option String) (d : String) : String :=
  match s with
  | none => d
  | some s => if s.isEmpty then d else s

/-- `meetingUrl || null`: an absent or empty URL is stored as SQL NULL. -/
def strOrNull (url : Option String) : Option String :=
  match url with
  | none => none
  | some u => if u.isEmpty then none else some u

/-- The guard `meetingUrl && meetingUrl.length > 255` of the confirm
handler: true only for a present, non-empty URL longer than 255. -/
def urlTooLong (url : Option String) : Bool :=
  match url with
  | none => false
  | some u => if u.isEmpty then false else decide (u.length > 255)

/-- Result of a handler that touches one `Sessions` row: the HTTP status
code of the response and the row after the operation (`none` when the
row does not exist). -/
structure OpResult where
  httpStatus : Nat
  session : Option Session
deriving DecidableEq, Repr

/-- POST /api/sessions/request (src/index.js lines 905-952): validates
presence of the required fields, rejects `requesterId === providerId`,
and otherwise inserts a new row with status 'Requested' and
`meeting_url = meetingUrl || null`.  It never touches an existing row,
so its result carries only the inserted row (`none` when rejected). -/
structure RequestResult where
  httpStatus : Nat
  inserted : Option Session
deriving DecidableEq, Repr

def requestSession (requesterId providerId skillTaughtId : Option Nat)
    (sessionDateTime locationType meetingUrl : Option String) : RequestResult :=
  if natFalsy requesterId || natFalsy providerId || natFalsy skillTaughtId
      || strFalsy sessionDateTime || strFalsy locationType then
    ⟨400, none⟩
  else if requesterId = providerId then
    ⟨400, none⟩
  else
    ⟨201, some
      { providerId := providerId.getD 0
        requesterId := requesterId.getD 0
        skillTaughtId := skillTaughtId.getD 0
        sessionDateTime := sessionDateTime.getD ""
        locationType := locationType.getD ""
        status := "Requested"
        meetingUrl := strOrNull meetingUrl
        cancellationReason := none }⟩

/-- POST /api/sessions/confirm (src/index.js lines 1052-1107): after the
falsy-id and not-found checks, a session whose `location_type` is
'Online' demands a truthy `meetingUrl` (400), an over-long URL is
rejected (400), and the UPDATE carries
`WHERE provider_id = authenticatedUserId AND status = 'Requested'`;
zero rows updated answers 403 and leaves the row untouched. -/
def confirmSession (row : Option Session) (sessionId : Option Nat)
    (authenticatedUserId : Nat) (meetingUrl : Option String) : OpResult :=
  if natFalsy sessionId then ⟨400, row⟩
  else
    match row with
    | none => ⟨404, none⟩
    | some s =>
      if s.locationType = "Online" ∧ strFalsy meetingUrl = true then
        ⟨400, some s⟩
      else if urlTooLong meetingUrl = true then
        ⟨400, some s⟩
      else if s.providerId = authenticatedUserId ∧ s.status = "Requested" then
        ⟨200, some { s with status := "Confirmed", meetingUrl := strOrNull meetingUrl }⟩
      else
        ⟨403, some s⟩

/-- POST /api/sessions/deny (src/index.js lines 1110-1170): fetches the
row, then on 'Requested' the requester cancelling yields 'Cancelled'
while any other acting user yields 'Denied'; on 'Confirmed' any acting
user yields 'Cancelled'; any other current status answers 400 without an
UPDATE.  `cancellation_reason` is set to `reason || 'No reason provided'`.
The handler performs no check that the actor is a participant. -/
def denyOrCancelSession (row : Option Session) (sessionId : Option Nat)
    (userId : Nat) (reason : Option String) : OpResult :=
  if natFalsy sessionId then ⟨400, row⟩
  else
    match row with
    | none => ⟨404, none⟩
    | some s =>
      if s.status = "Requested" then
        let newStatus := if userId = s.requesterId then "Cancelled" else "Denied"
        ⟨200, some { s with status := newStatus,
                            cancellationReason := some (orDefault reason "No reason provided") }⟩
      else if s.status = "Confirmed" then
        ⟨200, some { s with status := "Cancelled",
                            cancellationReason := some (orDefault reason "No reason provided") }⟩
      else
        ⟨400, some s⟩

/-- POST /api/sessions/complete (src/index.js lines 1173-1207): a single
UPDATE with `WHERE session_id = $1 AND status = 'Confirmed'`; zero rows
updated (row absent or not Confirmed) answers 400.  The handler takes no
acting-user parameter at all. -/
def completeSession (row : Option Session) (sessionId : Option Nat) : OpResult :=
  if natFalsy sessionId then ⟨400, row⟩
  else
    match row with
    | none => ⟨400, none⟩
    | some s =>
      if s.status = "Confirmed" then
        ⟨200, some { s with status := "Completed" }⟩
      else
        ⟨400, some s⟩

/-- Result of the rate handler: the HTTP status code and the `Ratings`
table afterwards. -/
structure RateResult where
  httpStatus : Nat
  ratings : List Rating
deriving DecidableEq, Repr

/-- POST /api/sessions/rate (src/index.js lines 1210-1272): validates
presence of sessionId/raterId/rateeId/likeStatus, rejects
`raterId === rateeId` (400), requires the session to exist (404) with
status exactly 'Completed' (403), then INSERTs; the UNIQUE constraint
on `session_id` surfaces a duplicate as error code 23505, answered 409.
No comparison of raterId/rateeId with the session participants occurs. -/
def rateSession (row : Option Session) (ratings : List Rating)
    (sessionId raterId rateeId : Option Nat) (likeStatus : Option Bool)
    (feedbackText : Option String) : RateResult :=
  if natFalsy sessionId || natFalsy raterId || natFalsy rateeId
      || (likeStatus == none) then
    ⟨400, ratings⟩
  else if raterId = rateeId then
    ⟨400, ratings⟩
  else
    match row with
    | none => ⟨404, ratings⟩
    | some s =>
      if s.status ≠ "Completed" then
        ⟨403, ratings⟩
      else if ratings.any (fun r => r.sessionId == sessionId.getD 0) then
        ⟨409, ratings⟩
      else
        ⟨201, ratings ++ [{ sessionId := sessionId.getD 0
                            raterId := raterId.getD 0
                            rateeId := rateeId.getD 0
                            likeStatus := likeStatus.getD false
                            feedbackText := strOrNull feedbackText }]⟩

/-- A JavaScript value as it sits in the rating-summary response row:
the pg driver delivers PostgreSQL bigint results as decimal strings and
SQL NULL as null, and the handler's patch writes the number 0. -/
inductive JsValue where
  | str : String → JsValue
  | num : Nat → JsValue
  | null : JsValue
deriving DecidableEq, Repr

/-- JavaScript truthiness of such a value: the empty string, the number
0, and null are falsy; every non-empty string (including the string
produced for the count 0) is truthy. -/
def jsFalsy : JsValue → Bool
  | .str s => s.isEmpty
  | .num n => n == 0
  | .null => true

/-- GET /api/user/ratings/:id response body, with the fields as the
JavaScript values the handler actually sends. -/
structure RatingSummary where
  totalRatingsReceived : JsValue
  totalLikes : JsValue
deriving DecidableEq, Repr

/-- GET /api/user/ratings/:id (src/index.js lines 1275-1306):
`COUNT(rating_id)` and `SUM(CASE WHEN like_status THEN 1 ELSE 0 END)`
over the rows with `ratee_id = userId`.  Both aggregates are bigint, so
node-postgres (no custom type parser is configured) delivers them as
decimal strings, except that the SUM over no rows is SQL NULL and
arrives as null.  The handler then runs
`if (!ratingSummary.total_ratings_received)` and overwrites both fields
with the number 0 — a test of JavaScript truthiness on the delivered
value. -/
def getRatingSummary (ratings : List Rating) (userId : Nat) : RatingSummary :=
  let rows := ratings.filter (fun r => r.rateeId == userId)
  let totalRatings : JsValue := .str (toString rows.length)
  let totalLikes : JsValue :=
    if rows.isEmpty then .null
    else .str (toString (rows.countP (fun r => r.likeStatus)))
  if jsFalsy totalRatings then ⟨.num 0, .num 0⟩
  else ⟨totalRatings, totalLikes⟩

/-- The invariant of the `Ratings` table enforced by its UNIQUE
constraint on `session_id`: at most one row per session. -/
def atMostOnePerSession (ratings : List Rating) : Prop :=
  ∀ sid : Nat, (ratings.filter (fun r => r.sessionId == sid)).length ≤ 1

/-- The draft confirm handler of src/unnamed/part_003 (lines 550-593):
it checks only the URL length, and its UPDATE has no provider or status
condition in the WHERE clause. -/
def confirmSessionDraft (row : Option Session) (sessionId : Option Nat)
    (meetingUrl : Option String) : OpResult :=
  if natFalsy sessionId then ⟨400, row⟩
  else if urlTooLong meetingUrl = true then ⟨400, row⟩
  else
    match row with
    | none => ⟨404, none⟩
    | some s =>
      ⟨200, some { s with status := "Confirmed", meetingUrl := strOrNull meetingUrl }⟩

/-- The draft deny handler of src/unnamed/part_003 (lines 596-650):
like the operative one but with no actor parameter at all — every
'Requested' session is set to 'Denied'. -/
def denyOrCancelSessionDraft (row : Option Session) (sessionId : Option Nat)
    (reason : Option String) : OpResult :=
  if natFalsy sessionId then ⟨400, row⟩
  else
    match row with
    | none => ⟨404, none⟩
    | some s =>
      if s.status = "Requested" then
        ⟨200, some { s with status := "Denied",
                            cancellationReason := some (orDefault reason "No reason provided") }⟩
      else if s.status = "Confirmed" then
        ⟨200, some { s with status := "Cancelled",
                            cancellationReason := some (orDefault reason "No reason provided") }⟩
      else
        ⟨400, some s⟩

/-- The draft confirm handler (src/unnamed/part_003) carries no status
or provider condition in its UPDATE: any existing session, whatever its
current status, is set to Confirmed.  The operative handler in
src/index.js adds both conditions; the claims are settled against the
operative handler, and this lemma records the draft's divergence. -/
theorem confirmSessionDraft_no_status_guard (s : Session) (n : Nat)
    (url : Option String) (hn : n ≠ 0) (hlen : urlTooLong url = false) :
    confirmSessionDraft (some s) (some n) url =
      ⟨200, some { s with status := "Confirmed", meetingUrl := strOrNull url }⟩ := by
  unfold confirmSessionDraft
  rw [if_neg (by simp [natFalsy, hn]), if_neg (by simp [hlen])]

/-- Unfolding lemma: confirmSession on an existing row with a nonzero id. -/
theorem confirmSession_some (s : Session) (n : Nat) (hn : n ≠ 0)
    (actor : Nat) (url : Option String) :
    confirmSession (some s) (some n) actor url =
      if s.locationType = "Online" ∧ strFalsy url = true then ⟨400, some s⟩
      else if urlTooLong url = true then ⟨400, some s⟩
      else if s.providerId = actor ∧ s.status = "Requested" then
        ⟨200, some { s with status := "Confirmed", meetingUrl := strOrNull url }⟩
      else ⟨403, some s⟩ := by
  unfold confirmSession
  rw [if_neg (by simp [natFalsy, hn])]

/-- Unfolding lemma: denyOrCancelSession on an existing row with a
nonzero id. -/
theorem denyOrCancelSession_some (s : Session) (n : Nat) (hn : n ≠ 0)
    (userId : Nat) (reason : Option String) :
    denyOrCancelSession (some s) (some n) userId reason =
      if s.status = "Requested" then
        ⟨200, some { s with
                     status := if userId = s.requesterId then "Cancelled" else "Denied",
                     cancellationReason := some (orDefault reason "No reason provided") }⟩
      else if s.status = "Confirmed" then
        ⟨200, some { s with status := "Cancelled",
                            cancellationReason := some (orDefault reason "No reason provided") }⟩
      else ⟨400, some s⟩ := by
  unfold denyOrCancelSession
  rw [if_neg (by simp [natFalsy, hn])]

/-- Unfolding lemma: completeSession on an existing row with a nonzero id. -/
theorem completeSession_some (s : Session) (n : Nat) (hn : n ≠ 0) :
    completeSession (some s) (some n) =
      if s.status = "Confirmed" then ⟨200, some { s with status := "Completed" }⟩
      else ⟨400, some s⟩ := by
  unfold completeSession
  rw [if_neg (by simp [natFalsy, hn])]

/-- Unfolding lemma: rateSession on an existing row once the field
validations pass. -/
theorem rateSession_some (s : Session) (ratings : List Rating)
    (n a b : Nat) (l : Bool) (fb : Option String)
    (hn : n ≠ 0) (ha : a ≠ 0) (hb : b ≠ 0) (hab : a ≠ b) :
    rateSession (some s) ratings (some n) (some a) (some b) (some l) fb =
      if s.status ≠ "Completed" then ⟨403, ratings⟩
      else if ratings.any (fun r => r.sessionId == n) then ⟨409, ratings⟩
      else ⟨201, ratings ++ [{ sessionId := n, raterId := a, rateeId := b,
                               likeStatus := l, feedbackText := strOrNull fb }]⟩ := by
  unfold rateSession
  rw [if_neg (by simp [natFalsy, ha, hb, hn]), if_neg (by simp [hab])]
  rfl

/-- C1: once a session is in a terminal status (Denied, Cancelled or
Completed), confirmSession, denyOrCancelSession and completeSession all
answer an error code (≥ 400) and leave the row exactly as it was, and
requestSession only ever inserts fresh rows in status 'Requested' (its
type takes no existing row), so no lifecycle operation moves a session
out of a terminal state. -/
theorem terminal_states_absorbing (s : Session) (n actor : Nat)
    (url reason : Option String) (hn : n ≠ 0)
    (hterm : s.status = "Denied" ∨ s.status = "Cancelled" ∨ s.status = "Completed") :
    (400 ≤ (confirmSession (some s) (some n) actor url).httpStatus ∧
      (confirmSession (some s) (some n) actor url).session = some s) ∧
    denyOrCancelSession (some s) (some n) actor reason = ⟨400, some s⟩ ∧
    completeSession (some s) (some n) = ⟨400, some s⟩ ∧
    (∀ rq pv sk dt lt mu (t : Session),
      (requestSession rq pv sk dt lt mu).inserted = some t → t.status = "Requested") := by
  have hreq : s.status ≠ "Requested" := by
    rcases hterm with h | h | h <;> simp [h]
  have hconf : s.status ≠ "Confirmed" := by
    rcases hterm with h | h | h <;> simp [h]
  refine ⟨?_, ?_, ?_, ?_⟩
  · rw [confirmSession_some s n hn actor url]
    split_ifs with h1 h2 h3
    · exact ⟨by norm_num, rfl⟩
    · exact ⟨by norm_num, rfl⟩
    · exact absurd h3.2 hreq
    · exact ⟨by norm_num, rfl⟩
  · rw [denyOrCancelSession_some s n hn actor reason]
    simp [hreq, hconf]
  · rw [completeSession_some s n hn]
    simp [hconf]
  · intro rq pv sk dt lt mu t h
    unfold requestSession at h
    split_ifs at h with h1 h2
    exact (Option.some.inj h) ▸ rfl

/-- C1 witness: instantiation at a concrete Denied session with id 7
and actor 99: each operation answers an error and keeps the row. -/
theorem terminal_states_absorbing_witness :
    (400 ≤ (confirmSession
        (some { providerId := 1, requesterId := 2, skillTaughtId := 3,
                sessionDateTime := "2025-06-01T10:00Z", locationType := "Online",
                status := "Denied", meetingUrl := none, cancellationReason := none })
        (some 7) 99 none).httpStatus ∧
      (confirmSession
        (some { providerId := 1, requesterId := 2, skillTaughtId := 3,
                sessionDateTime := "2025-06-01T10:00Z", locationType := "Online",
                status := "Denied", meetingUrl := none, cancellationReason := none })
        (some 7) 99 none).session =
        some { providerId := 1, requesterId := 2, skillTaughtId := 3,
               sessionDateTime := "2025-06-01T10:00Z", locationType := "Online",
               status := "Denied", meetingUrl := none, cancellationReason := none }) ∧
    denyOrCancelSession
      (some { providerId := 1, requesterId := 2, skillTaughtId := 3,
              sessionDateTime := "2025-06-01T10:00Z", locationType := "Online",
              status := "Denied", meetingUrl := none, cancellationReason := none })
      (some 7) 99 none =
      ⟨400, some { providerId := 1, requesterId := 2, skillTaughtId := 3,
                   sessionDateTime := "2025-06-01T10:00Z", locationType := "Online",
                   status := "Denied", meetingUrl := none, cancellationReason := none }⟩ ∧
    completeSession
      (some { providerId := 1, requesterId := 2, skillTaughtId := 3,
              sessionDateTime := "2025-06-01T10:00Z", locationType := "Online",
              status := "Denied", meetingUrl := none, cancellationReason := none })
      (some 7) =
      ⟨400, some { providerId := 1, requesterId := 2, skillTaughtId := 3,
                   sessionDateTime := "2025-06-01T10:00Z", locationType := "Online",
                   status := "Denied", meetingUrl := none, cancellationReason := none }⟩ := by
  have T := terminal_states_absorbing
    { providerId := 1, requesterId := 2, skillTaughtId := 3,
      sessionDateTime := "2025-06-01T10:00Z", locationType := "Online",
      status := "Denied", meetingUrl := none, cancellationReason := none }
    7 99 none none (by decide) (Or.inl rfl)
  exact ⟨T.1, T.2.1, T.2.2.1⟩

/-- C2: confirmSession answers 200 exactly when the current status is
'Requested' and the acting user is the provider (given inputs that pass
the URL validation); on success the row becomes Confirmed with the
supplied meetingUrl stored, and for a Requested session a confirmation
attempt by the requester (distinct from the provider) answers 403 with
the row untouched. -/
theorem confirm_requires_provider_and_requested (s : Session) (n actor : Nat)
    (url : Option String) (hn : n ≠ 0)
    (hurl : ¬(s.locationType = "Online" ∧ strFalsy url = true))
    (hlen : urlTooLong url = false) :
    ((confirmSession (some s) (some n) actor url).httpStatus = 200 ↔
      s.status = "Requested" ∧ actor = s.providerId) ∧
    (s.status = "Requested" → actor = s.providerId →
      confirmSession (some s) (some n) actor url =
        ⟨200, some { s with status := "Confirmed", meetingUrl := strOrNull url }⟩) ∧
    (s.status = "Requested" → actor = s.requesterId → s.requesterId ≠ s.providerId →
      confirmSession (some s) (some n) actor url = ⟨403, some s⟩) := by
  rw [confirmSession_some s n hn actor url, if_neg hurl, if_neg (by simp [hlen])]
  refine ⟨?_, ?_, ?_⟩
  · constructor
    · intro h200
      by_cases hc : s.providerId = actor ∧ s.status = "Requested"
      · exact ⟨hc.2, hc.1.symm⟩
      · rw [if_neg hc] at h200
        exact absurd h200 (by norm_num)
    · intro ⟨hst, hact⟩
      rw [if_pos ⟨hact.symm, hst⟩]
  · intro hst hact
    rw [if_pos ⟨hact.symm, hst⟩]
  · intro hst hact hne
    rw [if_neg]
    rintro ⟨hp, -⟩
    exact hne (hact ▸ hp.symm)

/-- C2 witness: on a Requested online session with provider 10 and
requester 20 and a valid URL, the requester's attempt answers 403 with
the row kept, and the provider's attempt answers 200 with the row
Confirmed and the URL stored. -/
theorem confirm_requires_provider_and_requested_witness :
    confirmSession
      (some { providerId := 10, requesterId := 20, skillTaughtId := 3,
              sessionDateTime := "2025-06-01T10:00Z", locationType := "Online",
              status := "Requested", meetingUrl := none, cancellationReason := none })
      (some 7) 20 (some "https://meet.example/abc") =
      ⟨403, some { providerId := 10, requesterId := 20, skillTaughtId := 3,
                   sessionDateTime := "2025-06-01T10:00Z", locationType := "Online",
                   status := "Requested", meetingUrl := none,
                   cancellationReason := none }⟩ ∧
    confirmSession
      (some { providerId := 10, requesterId := 20, skillTaughtId := 3,
              sessionDateTime := "2025-06-01T10:00Z", locationType := "Online",
              status := "Requested", meetingUrl := none, cancellationReason := none })
      (some 7) 10 (some "https://meet.example/abc") =
      ⟨200, some { providerId := 10, requesterId := 20, skillTaughtId := 3,
                   sessionDateTime := "2025-06-01T10:00Z", locationType := "Online",
                   status := "Confirmed",
                   meetingUrl := strOrNull (some "https://meet.example/abc"),
                   cancellationReason := none }⟩ := by
  have TR := confirm_requires_provider_and_requested
    { providerId := 10, requesterId := 20, skillTaughtId := 3,
      sessionDateTime := "2025-06-01T10:00Z", locationType := "Online",
      status := "Requested", meetingUrl := none, cancellationReason := none }
    7 20 (some "https://meet.example/abc") (by decide) (by decide) (by decide)
  have TP := confirm_requires_provider_and_requested
    { providerId := 10, requesterId := 20, skillTaughtId := 3,
      sessionDateTime := "2025-06-01T10:00Z", locationType := "Online",
      status := "Requested", meetingUrl := none, cancellationReason := none }
    7 10 (some "https://meet.example/abc") (by decide) (by decide) (by decide)
  exact ⟨TR.2.2 rfl rfl (by decide), TP.2.1 rfl rfl⟩

/-- C3: the deny/cancel transition map on an existing session with
distinct participants: Requested plus the requester acting gives
Cancelled, Requested plus the provider acting gives Denied, Confirmed
plus either participant acting gives Cancelled, and in every success
case the stored cancellation reason is the supplied one or the literal
default 'No reason provided' when the supplied reason is falsy. -/
theorem deny_cancel_transition_map (s : Session) (n actor : Nat)
    (reason : Option String) (hn : n ≠ 0) (hpr : s.providerId ≠ s.requesterId) :
    (s.status = "Requested" → actor = s.requesterId →
      denyOrCancelSession (some s) (some n) actor reason =
        ⟨200, some { s with status := "Cancelled",
                            cancellationReason := some (orDefault reason "No reason provided") }⟩) ∧
    (s.status = "Requested" → actor = s.providerId →
      denyOrCancelSession (some s) (some n) actor reason =
        ⟨200, some { s with status := "Denied",
                            cancellationReason := some (orDefault reason "No reason provided") }⟩) ∧
    (s.status = "Confirmed" → (actor = s.providerId ∨ actor = s.requesterId) →
      denyOrCancelSession (some s) (some n) actor reason =
        ⟨200, some { s with status := "Cancelled",
                            cancellationReason := some (orDefault reason "No reason provided") }⟩) ∧
    (strFalsy reason = true → orDefault reason "No reason provided" = "No reason provided") := by
  rw [denyOrCancelSession_some s n hn actor reason]
  refine ⟨?_, ?_, ?_, ?_⟩
  · intro hst hact
    rw [if_pos hst, if_pos hact]
  · intro hst hact
    rw [if_pos hst, if_neg (by rw [hact]; exact hpr)]
  · intro hst hpart
    have hne : s.status ≠ "Requested" := by rw [hst]; simp
    rw [if_neg hne, if_pos hst]
  · intro hf
    cases reason with
    | none => rfl
    | some r =>
      simp only [strFalsy] at hf
      simp [orDefault, hf]

/-- C3 witness: requester 20 cancelling a Requested session gives
Cancelled with the default reason; provider 10 denying it gives Denied;
provider 10 cancelling the Confirmed variant with reason 'busy' gives
Cancelled with that reason; and the default placeholder applies to an
absent reason. -/
theorem deny_cancel_transition_map_witness :
    denyOrCancelSession
      (some { providerId := 10, requesterId := 20, skillTaughtId := 3,
              sessionDateTime := "2025-06-01T10:00Z", locationType := "Online",
              status := "Requested", meetingUrl := none, cancellationReason := none })
      (some 7) 20 none =
      ⟨200, some { providerId := 10, requesterId := 20, skillTaughtId := 3,
                   sessionDateTime := "2025-06-01T10:00Z", locationType := "Online",
                   status := "Cancelled", meetingUrl := none,
                   cancellationReason := some (orDefault none "No reason provided") }⟩ ∧
    denyOrCancelSession
      (some { providerId := 10, requesterId := 20, skillTaughtId := 3,
              sessionDateTime := "2025-06-01T10:00Z", locationType := "Online",
              status := "Requested", meetingUrl := none, cancellationReason := none })
      (some 7) 10 none =
      ⟨200, some { providerId := 10, requesterId := 20, skillTaughtId := 3,
                   sessionDateTime := "2025-06-01T10:00Z", locationType := "Online",
                   status := "Denied", meetingUrl := none,
                   cancellationReason := some (orDefault none "No reason provided") }⟩ ∧
    denyOrCancelSession
      (some { providerId := 10, requesterId := 20, skillTaughtId := 3,
              sessionDateTime := "2025-06-01T10:00Z", locationType := "Online",
              status := "Confirmed", meetingUrl := none, cancellationReason := none })
      (some 7) 10 (some "busy") =
      ⟨200, some { providerId := 10, requesterId := 20, skillTaughtId := 3,
                   sessionDateTime := "2025-06-01T10:00Z", locationType := "Online",
                   status := "Cancelled", meetingUrl := none,
                   cancellationReason := some (orDefault (some "busy")
                     "No reason provided") }⟩ ∧
    orDefault none "No reason provided" = "No reason provided" := by
  have TQ := deny_cancel_transition_map
    { providerId := 10, requesterId := 20, skillTaughtId := 3,
      sessionDateTime := "2025-06-01T10:00Z", locationType := "Online",
      status := "Requested", meetingUrl := none, cancellationReason := none }
    7 20 none (by decide) (by decide)
  have TD := deny_cancel_transition_map
    { providerId := 10, requesterId := 20, skillTaughtId := 3,
      sessionDateTime := "2025-06-01T10:00Z", locationType := "Online",
      status := "Requested", meetingUrl := none, cancellationReason := none }
    7 10 none (by decide) (by decide)
  have TC := deny_cancel_transition_map
    { providerId := 10, requesterId := 20, skillTaughtId := 3,
      sessionDateTime := "2025-06-01T10:00Z", locationType := "Online",
      status := "Confirmed", meetingUrl := none, cancellationReason := none }
    7 10 (some "busy") (by decide) (by decide)
  exact ⟨TQ.1 rfl rfl, TD.2.1 rfl rfl, TC.2.2.1 rfl (Or.inl rfl), TQ.2.2.2 rfl⟩

/-- C8: completeSession answers 200 and sets status 'Completed' exactly
when the row exists in status 'Confirmed'; a missing row or any other
current status (for instance 'Requested') answers 400 and leaves the
row as it was. -/
theorem complete_requires_confirmed (s : Session) (n : Nat) (hn : n ≠ 0) :
    (s.status = "Confirmed" →
      completeSession (some s) (some n) = ⟨200, some { s with status := "Completed" }⟩) ∧
    (s.status ≠ "Confirmed" →
      completeSession (some s) (some n) = ⟨400, some s⟩) ∧
    completeSession none (some n) = ⟨400, none⟩ := by
  rw [completeSession_some s n hn]
  refine ⟨fun h => by rw [if_pos h], fun h => by rw [if_neg h], ?_⟩
  unfold completeSession
  rw [if_neg (by simp [natFalsy, hn])]

/-- C8 witness: completing a Confirmed session with id 7 answers 200
and sets Completed; completing its Requested variant answers 400 and
keeps the row; a missing row answers 400. -/
theorem complete_requires_confirmed_witness :
    completeSession
      (some { providerId := 10, requesterId := 20, skillTaughtId := 3,
              sessionDateTime := "2025-06-01T10:00Z", locationType := "Online",
              status := "Confirmed", meetingUrl := none, cancellationReason := none })
      (some 7) =
      ⟨200, some { providerId := 10, requesterId := 20, skillTaughtId := 3,
                   sessionDateTime := "2025-06-01T10:00Z", locationType := "Online",
                   status := "Completed", meetingUrl := none,
                   cancellationReason := none }⟩ ∧
    completeSession
      (some { providerId := 10, requesterId := 20, skillTaughtId := 3,
              sessionDateTime := "2025-06-01T10:00Z", locationType := "Online",
              status := "Requested", meetingUrl := none, cancellationReason := none })
      (some 7) =
      ⟨400, some { providerId := 10, requesterId := 20, skillTaughtId := 3,
                   sessionDateTime := "2025-06-01T10:00Z", locationType := "Online",
                   status := "Requested", meetingUrl := none,
                   cancellationReason := none }⟩ ∧
    completeSession none (some 7) = ⟨400, none⟩ := by
  have TC := complete_requires_confirmed
    { providerId := 10, requesterId := 20, skillTaughtId := 3,
      sessionDateTime := "2025-06-01T10:00Z", locationType := "Online",
      status := "Confirmed", meetingUrl := none, cancellationReason := none }
    7 (by decide)
  have TQ := complete_requires_confirmed
    { providerId := 10, requesterId := 20, skillTaughtId := 3,
      sessionDateTime := "2025-06-01T10:00Z", locationType := "Online",
      status := "Requested", meetingUrl := none, cancellationReason := none }
    7 (by decide)
  exact ⟨TC.1 rfl, TQ.2.1 (by decide), TQ.2.2⟩

/-- C6 counterexample: a user (id 5) who is neither the provider (1)
nor the requester (2) of an existing Requested session calls the
deny/cancel operation and, contrary to the claim, receives 200 (not
Forbidden) and the session's status changes to 'Denied' with the
cancellation reason stored. -/
theorem deny_no_participant_check_cex :
    (denyOrCancelSession
        (some { providerId := 1, requesterId := 2, skillTaughtId := 3,
                sessionDateTime := "2025-06-01T10:00Z", locationType := "Online",
                status := "Requested", meetingUrl := none, cancellationReason := none })
        (some 7) 5 (some "outsider acting")).httpStatus = 200 ∧
    (denyOrCancelSession
        (some { providerId := 1, requesterId := 2, skillTaughtId := 3,
                sessionDateTime := "2025-06-01T10:00Z", locationType := "Online",
                status := "Requested", meetingUrl := none, cancellationReason := none })
        (some 7) 5 (some "outsider acting")).session =
      some { providerId := 1, requesterId := 2, skillTaughtId := 3,
             sessionDateTime := "2025-06-01T10:00Z", locationType := "Online",
             status := "Denied", meetingUrl := none,
             cancellationReason := some "outsider acting" } := by
  constructor <;> decide

/-- C6 amended: the deny/cancel handler never checks that the acting
user is a participant and has no Forbidden answer at all: on an existing
session its only codes are 200 and 400, and an acting user who is
neither participant is handled like the provider — a Requested session
becomes Denied and a Confirmed one becomes Cancelled, with the
cancellation reason stored. -/
theorem deny_actor_mapping_no_forbidden (s : Session) (n actor : Nat)
    (reason : Option String) (hn : n ≠ 0) :
    ((denyOrCancelSession (some s) (some n) actor reason).httpStatus = 200 ∨
      (denyOrCancelSession (some s) (some n) actor reason).httpStatus = 400) ∧
    (s.status = "Requested" → actor ≠ s.requesterId →
      denyOrCancelSession (some s) (some n) actor reason =
        ⟨200, some { s with status := "Denied",
                            cancellationReason := some (orDefault reason "No reason provided") }⟩) ∧
    (s.status = "Confirmed" →
      denyOrCancelSession (some s) (some n) actor reason =
        ⟨200, some { s with status := "Cancelled",
                            cancellationReason := some (orDefault reason "No reason provided") }⟩) := by
  rw [denyOrCancelSession_some s n hn actor reason]
  refine ⟨?_, ?_, ?_⟩
  · split_ifs <;> simp
  · intro hst hact
    rw [if_pos hst, if_neg hact]
  · intro hst
    have hne : s.status ≠ "Requested" := by rw [hst]; simp
    rw [if_neg hne, if_pos hst]

/-- C6 witness: instantiation at the Requested session with the
non-participant actor 5: the answer is 200 (never Forbidden) and the
row becomes Denied with the reason stored. -/
theorem deny_actor_mapping_no_forbidden_witness :
    ((denyOrCancelSession
        (some { providerId := 1, requesterId := 2, skillTaughtId := 3,
                sessionDateTime := "2025-06-01T10:00Z", locationType := "Online",
                status := "Requested", meetingUrl := none, cancellationReason := none })
        (some 7) 5 (some "outsider acting")).httpStatus = 200 ∨
      (denyOrCancelSession
        (some { providerId := 1, requesterId := 2, skillTaughtId := 3,
                sessionDateTime := "2025-06-01T10:00Z", locationType := "Online",
                status := "Requested", meetingUrl := none, cancellationReason := none })
        (some 7) 5 (some "outsider acting")).httpStatus = 400) ∧
    denyOrCancelSession
      (some { providerId := 1, requesterId := 2, skillTaughtId := 3,
              sessionDateTime := "2025-06-01T10:00Z", locationType := "Online",
              status := "Requested", meetingUrl := none, cancellationReason := none })
      (some 7) 5 (some "outsider acting") =
      ⟨200, some { providerId := 1, requesterId := 2, skillTaughtId := 3,
                   sessionDateTime := "2025-06-01T10:00Z", locationType := "Online",
                   status := "Denied", meetingUrl := none,
                   cancellationReason := some (orDefault (some "outsider acting")
                     "No reason provided") }⟩ := by
  have T := deny_actor_mapping_no_forbidden
    { providerId := 1, requesterId := 2, skillTaughtId := 3,
      sessionDateTime := "2025-06-01T10:00Z", locationType := "Online",
      status := "Requested", meetingUrl := none, cancellationReason := none }
    7 5 (some "outsider acting") (by decide)
  exact ⟨T.1, T.2.1 rfl (by decide)⟩

/-- C7: confirming an Online session with an absent or empty meetingUrl
answers 400 and leaves the row untouched; any supplied meetingUrl longer
than 255 characters answers 400 and leaves the row untouched; and
whenever a confirmation of an Online session answers 200, the row it
produced is the Confirmed row carrying a non-empty stored meetingUrl of
length at most 255. -/
theorem confirm_online_url_validation (s : Session) (n actor : Nat)
    (url : Option String) (hn : n ≠ 0) :
    (s.locationType = "Online" → strFalsy url = true →
      confirmSession (some s) (some n) actor url = ⟨400, some s⟩) ∧
    (∀ u : String, u.length > 255 →
      confirmSession (some s) (some n) actor (some u) = ⟨400, some s⟩) ∧
    (s.locationType = "Online" →
      (confirmSession (some s) (some n) actor url).httpStatus = 200 →
      ∃ u : String,
        (confirmSession (some s) (some n) actor url).session =
          some { s with status := "Confirmed", meetingUrl := some u } ∧
        u.isEmpty = false ∧ u.length ≤ 255) := by
  refine ⟨?_, ?_, ?_⟩
  · intro hloc hfal
    rw [confirmSession_some s n hn actor url, if_pos ⟨hloc, hfal⟩]
  · intro u hlong
    have hne : u.isEmpty = false := by
      cases hemp : u.isEmpty
      · rfl
      · exfalso
        have hu : u = "" := (String.isEmpty_iff u).mp (by rw [hemp])
        subst hu
        simp at hlong
    rw [confirmSession_some s n hn actor (some u)]
    rw [if_neg (by rintro ⟨-, hf⟩; simp [strFalsy, hne] at hf)]
    rw [if_pos (by simp [urlTooLong, hne, hlong])]
  · intro hloc h200
    rw [confirmSession_some s n hn actor url] at h200 ⊢
    by_cases h1 : s.locationType = "Online" ∧ strFalsy url = true
    · rw [if_pos h1] at h200
      exact absurd h200 (by norm_num)
    · rw [if_neg h1] at h200 ⊢
      by_cases h2 : urlTooLong url = true
      · rw [if_pos h2] at h200
        exact absurd h200 (by norm_num)
      · rw [if_neg h2] at h200 ⊢
        by_cases h3 : s.providerId = actor ∧ s.status = "Requested"
        · rw [if_pos h3] at h200 ⊢
          cases url with
          | none => exact absurd ⟨hloc, rfl⟩ h1
          | some u =>
            have hne : u.isEmpty = false := by
              cases hemp : u.isEmpty
              · rfl
              · exact absurd ⟨hloc, by simp [strFalsy, hemp]⟩ h1
            refine ⟨u, ?_, hne, ?_⟩
            · simp [strOrNull, hne]
            · simp [urlTooLong, hne] at h2
              omega
        · rw [if_neg h3] at h200
          exact absurd h200 (by norm_num)

/-- C7 witness: confirming the Requested Online session with no URL
answers 400 unchanged, and confirming it with a 256-character URL also
answers 400 unchanged. -/
theorem confirm_online_url_validation_witness :
    confirmSession
      (some { providerId := 10, requesterId := 20, skillTaughtId := 3,
              sessionDateTime := "2025-06-01T10:00Z", locationType := "Online",
              status := "Requested", meetingUrl := none, cancellationReason := none })
      (some 7) 10 none =
      ⟨400, some { providerId := 10, requesterId := 20, skillTaughtId := 3,
                   sessionDateTime := "2025-06-01T10:00Z", locationType := "Online",
                   status := "Requested", meetingUrl := none,
                   cancellationReason := none }⟩ ∧
    confirmSession
      (some { providerId := 10, requesterId := 20, skillTaughtId := 3,
              sessionDateTime := "2025-06-01T10:00Z", locationType := "Online",
              status := "Requested", meetingUrl := none, cancellationReason := none })
      (some 7) 10 (some (String.mk (List.replicate 256 (Char.ofNat 97)))) =
      ⟨400, some { providerId := 10, requesterId := 20, skillTaughtId := 3,
                   sessionDateTime := "2025-06-01T10:00Z", locationType := "Online",
                   status := "Requested", meetingUrl := none,
                   cancellationReason := none }⟩ := by
  have T := confirm_online_url_validation
    { providerId := 10, requesterId := 20, skillTaughtId := 3,
      sessionDateTime := "2025-06-01T10:00Z", locationType := "Online",
      status := "Requested", meetingUrl := none, cancellationReason := none }
    7 10 none (by decide)
  refine ⟨T.1 rfl rfl, T.2.1 (String.mk (List.replicate 256 (Char.ofNat 97))) ?_⟩
  rw [String.length_mk, List.length_replicate]
  omega

/-- C4: with well-formed inputs, rating a session whose status is not
exactly 'Completed' answers 403 and inserts nothing; rating a Completed
session that already has a rating row answers 409 (the UNIQUE
constraint on session_id surfaced as a conflict) and inserts nothing;
and the operation preserves the at-most-one-rating-per-session
invariant of the Ratings table. -/
theorem rate_requires_completed_and_unique (s : Session) (ratings : List Rating)
    (n a b : Nat) (l : Bool) (fb : Option String)
    (hn : n ≠ 0) (ha : a ≠ 0) (hb : b ≠ 0) (hab : a ≠ b) :
    (s.status ≠ "Completed" →
      rateSession (some s) ratings (some n) (some a) (some b) (some l) fb =
        ⟨403, ratings⟩) ∧
    (s.status = "Completed" → (∃ r ∈ ratings, r.sessionId = n) →
      rateSession (some s) ratings (some n) (some a) (some b) (some l) fb =
        ⟨409, ratings⟩) ∧
    (atMostOnePerSession ratings →
      atMostOnePerSession
        (rateSession (some s) ratings (some n) (some a) (some b) (some l) fb).ratings) := by
  rw [rateSession_some s ratings n a b l fb hn ha hb hab]
  refine ⟨?_, ?_, ?_⟩
  · intro hne
    rw [if_pos hne]
  · intro hst hex
    rw [if_neg (by simp [hst])]
    rw [if_pos ?_]
    obtain ⟨r, hr, hrs⟩ := hex
    exact List.any_eq_true.mpr ⟨r, hr, by simpa using hrs⟩
  · intro hinv
    split_ifs with h1 h2
    · exact hinv
    · exact hinv
    · intro sid
      show (List.filter (fun r => r.sessionId == sid)
        (ratings ++ [{ sessionId := n, raterId := a, rateeId := b,
                       likeStatus := l, feedbackText := strOrNull fb }])).length ≤ 1
      rw [List.filter_append]
      by_cases hsid : sid = n
      · subst hsid
        have hnil : ratings.filter (fun r => r.sessionId == sid) = [] := by
          rw [List.filter_eq_nil_iff]
          intro r hr hc
          exact h2 (List.any_eq_true.mpr ⟨r, hr, hc⟩)
        rw [hnil]
        simp
      · have hnil : (List.filter (fun r => r.sessionId == sid)
            [{ sessionId := n, raterId := a, rateeId := b,
               likeStatus := l, feedbackText := strOrNull fb }]) = ([] : List Rating) := by
          simp [Ne.symm hsid]
        rw [hnil, List.append_nil]
        exact hinv sid

/-- C4 witness: rating a Requested session answers 403 without an
insert, and a duplicate rating of a Completed session with id 7 answers
409 without an insert. -/
theorem rate_requires_completed_and_unique_witness :
    rateSession
      (some { providerId := 10, requesterId := 20, skillTaughtId := 3,
              sessionDateTime := "2025-06-01T10:00Z", locationType := "Online",
              status := "Requested", meetingUrl := none, cancellationReason := none })
      [] (some 7) (some 20) (some 10) (some true) none = ⟨403, []⟩ ∧
    rateSession
      (some { providerId := 10, requesterId := 20, skillTaughtId := 3,
              sessionDateTime := "2025-06-01T10:00Z", locationType := "Online",
              status := "Completed", meetingUrl := none, cancellationReason := none })
      [{ sessionId := 7, raterId := 20, rateeId := 10, likeStatus := true,
         feedbackText := none }]
      (some 7) (some 20) (some 10) (some true) none =
      ⟨409, [{ sessionId := 7, raterId := 20, rateeId := 10, likeStatus := true,
               feedbackText := none }]⟩ := by
  have TQ := rate_requires_completed_and_unique
    { providerId := 10, requesterId := 20, skillTaughtId := 3,
      sessionDateTime := "2025-06-01T10:00Z", locationType := "Online",
      status := "Requested", meetingUrl := none, cancellationReason := none }
    [] 7 20 10 true none (by decide) (by decide) (by decide) (by decide)
  have TD := rate_requires_completed_and_unique
    { providerId := 10, requesterId := 20, skillTaughtId := 3,
      sessionDateTime := "2025-06-01T10:00Z", locationType := "Online",
      status := "Completed", meetingUrl := none, cancellationReason := none }
    [{ sessionId := 7, raterId := 20, rateeId := 10, likeStatus := true,
       feedbackText := none }]
    7 20 10 true none (by decide) (by decide) (by decide) (by decide)
  exact ⟨TQ.1 (by decide),
         TD.2.1 rfl ⟨{ sessionId := 7, raterId := 20, rateeId := 10,
                       likeStatus := true, feedbackText := none },
                     by simp, rfl⟩⟩

/-- C5: evaluation at the failing input.  For user 4 with no rating
rows, the handler answers total_ratings_received as the string '0' —
the pg driver delivers the bigint COUNT as a string, which is truthy,
so the `if (!total_ratings_received)` patch never fires — and
total_likes as null.  The claim says both fields are the number 0 and
never null; the handler's own comment ("make sure 0 is returned instead
of null") states that intent, so the code, not the claim, is wrong. -/
theorem rating_summary_null_likes_at_zero :
    getRatingSummary [] 4 = ⟨JsValue.str "0", JsValue.null⟩ ∧
    jsFalsy (JsValue.str "0") = false := by
  constructor <;> rfl

/-- C9: a session request naming the same user as requester and provider
inserts nothing (and, with the other fields present, is answered 400),
and every session the operation ever inserts has distinct provider and
requester and status 'Requested', so the creation-time invariant
providerId ≠ requesterId holds for every created session. -/
theorem request_rejects_self_session (p sk : Nat) (dt lt url : Option String) :
    (requestSession (some p) (some p) (some sk) dt lt url).inserted = none ∧
    (p ≠ 0 → sk ≠ 0 → strFalsy dt = false → strFalsy lt = false →
      (requestSession (some p) (some p) (some sk) dt lt url).httpStatus = 400) ∧
    (∀ rq pv skl dtt ltt mu (t : Session),
      (requestSession rq pv skl dtt ltt mu).inserted = some t →
        t.providerId ≠ t.requesterId ∧ t.status = "Requested") := by
  refine ⟨?_, ?_, ?_⟩
  · unfold requestSession
    split_ifs with h1 h2
    · rfl
    · rfl
    · exact absurd rfl h2
  · intro hp hsk hdt hlt
    unfold requestSession
    split_ifs with h1 h2
    · rfl
    · rfl
    · exact absurd rfl h2
  · intro rq pv skl dtt ltt mu t h
    unfold requestSession at h
    split_ifs at h with h1 h2
    have hrq : natFalsy rq = false := by
      cases hx : natFalsy rq
      · rfl
      · exact absurd (by simp [hx]) h1
    have hpv : natFalsy pv = false := by
      cases hx : natFalsy pv
      · rfl
      · exact absurd (by simp [hx]) h1
    cases rq with
    | none => simp [natFalsy] at hrq
    | some r =>
      cases pv with
      | none => simp [natFalsy] at hpv
      | some v =>
        have hrv : v ≠ r := fun he => h2 (by rw [he])
        have ht := Option.some.inj h
        subst ht
        exact ⟨fun he => hrv he, rfl⟩

/-- C9 witness: requesting a session with requester 5 equal to
provider 5 and all other fields present inserts nothing and answers
400. -/
theorem request_rejects_self_session_witness :
    (requestSession (some 5) (some 5) (some 3) (some "2025-06-01T10:00Z")
        (some "Online") none).inserted = none ∧
    (requestSession (some 5) (some 5) (some 3) (some "2025-06-01T10:00Z")
        (some "Online") none).httpStatus = 400 := by
  have T := request_rejects_self_session 5 3 (some "2025-06-01T10:00Z")
    (some "Online") none
  exact ⟨T.1, T.2.1 (by decide) (by decide) (by decide) (by decide)⟩

/-- C10: the rate handler never compares raterId or rateeId with the
session's participants: on a Completed session with no existing rating,
any two distinct non-zero user ids — participants or not — are accepted,
the answer is 201 and the rating row is inserted. -/
theorem rate_ignores_participants (s : Session) (ratings : List Rating)
    (n a b : Nat) (l : Bool) (fb : Option String)
    (hn : n ≠ 0) (ha : a ≠ 0) (hb : b ≠ 0) (hab : a ≠ b)
    (hs : s.status = "Completed")
    (hno : ∀ r ∈ ratings, r.sessionId ≠ n) :
    rateSession (some s) ratings (some n) (some a) (some b) (some l) fb =
      ⟨201, ratings ++ [{ sessionId := n, raterId := a, rateeId := b,
                          likeStatus := l, feedbackText := strOrNull fb }]⟩ := by
  rw [rateSession_some s ratings n a b l fb hn ha hb hab]
  rw [if_neg (by simp [hs])]
  rw [if_neg ?_]
  rw [List.any_eq_true]
  rintro ⟨r, hr, hc⟩
  exact hno r hr (by simpa using hc)

/-- C10 witness: a Completed session between provider 1 and requester 2
is rated by the outsiders 5 (rater) and 6 (ratee), neither of them a
participant, and the rating is inserted with 201. -/
theorem rate_ignores_participants_witness :
    rateSession
      (some { providerId := 1, requesterId := 2, skillTaughtId := 3,
              sessionDateTime := "2025-06-01T10:00Z", locationType := "Online",
              status := "Completed", meetingUrl := none, cancellationReason := none })
      [] (some 7) (some 5) (some 6) (some true) none =
      ⟨201, [] ++ [{ sessionId := 7, raterId := 5, rateeId := 6,
                     likeStatus := true, feedbackText := strOrNull none }]⟩ :=
  rate_ignores_participants
    { providerId := 1, requesterId := 2, skillTaughtId := 3,
      sessionDateTime := "2025-06-01T10:00Z", locationType := "Online",
      status := "Completed", meetingUrl := none, cancellationReason := none }
    [] 7 5 6 true none (by decide) (by decide) (by decide) (by decide) rfl
    (by simp)

end SkillSwap
